import Mathlib

/-!
Verification of the timecard-processing backend (`src/backend`) against its
natural-language specification.

The development shallowly embeds the two components the claims are about:

* `database.py` (`DatabaseManager`): the persisted job queue.  The store is a
  `List JobRow`; SQL queries become list operations; datetimes become `Nat`
  instants; the JSON `result` column is abstracted to `Option String`.
  Operations that can raise are embedded with `Except`.
* `timecard_pipeline.py` (`TimecardPipeline`): the extraction post-processing
  and validation logic.  Python floats are embedded as `ℚ` (the tolerance
  comparisons of the source are exact in `ℚ`); JSON values occurring inside
  `daily_entries` are embedded as `JVal` (a string or a number; a numeric
  string is represented by its numeric value, a non-numeric string by `.s`);
  a Python exception (`ValueError` from `float()`, `TypeError` from mixed-type
  sorting) is an `Except.error`.
-/

namespace Timecards

/-! ## database.py: data model -/

/-- `class JobStatus(Enum)` of database.py (lines 35-40). -/
inductive JobStatus
  | pending
  | processing
  | completed
  | failed
  | cancelled
deriving DecidableEq

/-- `class JobPriority(Enum)` of database.py (lines 43-47). -/
inductive JobPriority
  | low
  | normal
  | high
  | urgent
deriving DecidableEq

/-- The integer value stored in the `priority` column. -/
def JobPriority.value : JobPriority → Nat
  | .low => 1
  | .normal => 2
  | .high => 3
  | .urgent => 4

/-- One row of the `jobs` table (`JobModel` of database.py).  Timestamps are
abstract instants (`Nat`); the JSON `result` payload is abstracted to a
string. -/
structure JobRow where
  id : Nat
  jobType : String
  status : JobStatus
  priority : Nat
  file_name : String
  file_size : Nat
  created_at : Nat
  updated_at : Nat
  started_at : Option Nat := none
  completed_at : Option Nat := none
  progress : Nat := 0
  result : Option String := none
  error : Option String := none
deriving DecidableEq

/-- `DatabaseManager.create_job`: inserts a new Pending row (database.py
lines 152-178); `created_at`/`updated_at` default to the current instant. -/
def create_job (s : List JobRow) (id : Nat) (job_type : String) (file_name : String)
    (file_size : Nat) (priority : JobPriority) (now : Nat) : List JobRow :=
  s ++ [{ id := id, jobType := job_type, status := .pending, priority := priority.value,
          file_name := file_name, file_size := file_size,
          created_at := now, updated_at := now }]

/-! ## database.py: get_next_job (claim C1)

The query is
`filter(status == PENDING).order_by(priority.desc(), created_at.asc()).first()`:
the first row of a stable sort, i.e. the left-most pending row that no other
pending row strictly precedes in the order (higher priority first, then
earlier `created_at`). -/

/-- `claimBetter a b` holds when row `a` strictly precedes row `b` in the
dequeue order `ORDER BY priority DESC, created_at ASC`. -/
def claimBetter (a b : JobRow) : Bool :=
  decide (b.priority < a.priority) ||
    (decide (a.priority = b.priority) && decide (a.created_at < b.created_at))

/-- Keep the better of the best candidate seen so far and the current pending
row `j`; on a tie the current row `j` (the one earlier in table order) wins,
matching the stability of the SQL sort. -/
def chooseBetter (cand : Option JobRow) (j : JobRow) : Option JobRow :=
  match cand with
  | none => some j
  | some b => if claimBetter b j then some b else some j

/-- The `.first()` of the ordered pending-row query: the left-most pending row
that is not strictly preceded by any other pending row. -/
def selectNext : List JobRow → Option JobRow
  | [] => none
  | j :: rest =>
    if j.status = JobStatus.pending then chooseBetter (selectNext rest) j
    else selectNext rest

/-- The in-transaction update performed on the claimed row (database.py
lines 230-235): status `processing`, `updated_at` and `started_at` stamped. -/
def markProcessing (j : JobRow) (now : Nat) : JobRow :=
  { j with status := .processing, updated_at := now, started_at := some now }

/-- `DatabaseManager.get_next_job` (database.py lines 215-242): select the
next pending job by priority and atomically mark it processing.  Returns the
claimed job (post-update, as `_model_to_job(job_model)` does) and the new
store. -/
def get_next_job (s : List JobRow) (now : Nat) : Option JobRow × List JobRow :=
  match selectNext s with
  | none => (none, s)
  | some j =>
      (some (markProcessing j now),
       s.map fun r => if r.id = j.id then markProcessing r now else r)

/-! ## database.py: update_job_status (claim C3) -/

/-- The row mutation of `DatabaseManager.update_job_status` (database.py lines
262-283): status and `updated_at` are written unconditionally, the optional
fields only when given; then `started_at` is stamped only when entering
`processing` with `started_at` still unset, and otherwise (`elif`)
`completed_at` is stamped whenever the new status is terminal. -/
def applyStatusUpdate (j : JobRow) (st : JobStatus) (progress : Option Nat)
    (result : Option String) (err : Option String) (now : Nat) : JobRow :=
  let j1 : JobRow := { j with status := st, updated_at := now }
  let j2 : JobRow := match progress with
    | some p => { j1 with progress := p }
    | none => j1
  let j3 : JobRow := match result with
    | some r => { j2 with result := some r }
    | none => j2
  let j4 : JobRow := match err with
    | some e => { j3 with error := some e }
    | none => j3
  if st = JobStatus.processing ∧ j4.started_at = none then
    { j4 with started_at := some now }
  else if st = JobStatus.completed ∨ st = JobStatus.failed ∨ st = JobStatus.cancelled then
    { j4 with completed_at := some now }
  else j4

/-- `DatabaseManager.update_job_status` (database.py lines 244-288): raises
`ValueError` when the id is absent, otherwise applies the row mutation. -/
def update_job_status (s : List JobRow) (id : Nat) (st : JobStatus)
    (progress : Option Nat) (result : Option String) (err : Option String)
    (now : Nat) : Except String (List JobRow) :=
  match s.find? (fun r => r.id == id) with
  | none => .error ("Job " ++ toString id ++ " not found")
  | some _ =>
      .ok (s.map fun r =>
        if r.id == id then applyStatusUpdate r st progress result err now else r)

/-! ## database.py: cancel_job (claim C6) -/

/-- `DatabaseManager.cancel_job` (database.py lines 290-313): a filtered bulk
UPDATE that sets status `cancelled` and stamps `updated_at` on the rows with
the given id that are still `pending`; returns whether any row was affected
(`result > 0`). -/
def cancel_job (s : List JobRow) (id : Nat) (now : Nat) : Bool × List JobRow :=
  let hit : JobRow → Bool := fun r => r.id == id && r.status == JobStatus.pending
  let affected := s.countP hit
  (decide (0 < affected),
   s.map fun r =>
     if hit r then { r with status := .cancelled, updated_at := now } else r)

/-! ## database.py: get_queue_stats success_rate (claim C5) -/

/-- The `success_rate` entry of `DatabaseManager.get_queue_stats` (database.py
lines 403-409): with the per-status counts grouped from the table,
`completed / total_finished * 100` when any job finished, else `0`. -/
def success_rate (s : List JobRow) : ℚ :=
  let completed := s.countP fun r => r.status == JobStatus.completed
  let failed := s.countP fun r => r.status == JobStatus.failed
  let total_finished := completed + failed
  if 0 < total_finished then (completed : ℚ) / (total_finished : ℚ) * 100 else 0

/-! ## database.py: get_all_jobs (claim C9) -/

/-- Descending insertion by `created_at`, embedding
`order_by(created_at.desc())`. -/
def insertByCreatedDesc (j : JobRow) : List JobRow → List JobRow
  | [] => [j]
  | x :: xs =>
    if x.created_at ≤ j.created_at then j :: x :: xs else x :: insertByCreatedDesc j xs

def sortByCreatedDesc (l : List JobRow) : List JobRow :=
  l.foldr insertByCreatedDesc []

/-- The query body of `DatabaseManager.get_all_jobs` (database.py lines
197-204): optional status filter, newest first, then `LIMIT limit`.  The
function performs no validation of `limit`; a negative value has SQLite
`LIMIT` semantics (no restriction). -/
def listQuery (s : List JobRow) (limit : Int)
    (status_filter : Option (List JobStatus)) : List JobRow :=
  let q := match status_filter with
    | some fs => s.filter fun r => fs.contains r.status
    | none => s
  let q := sortByCreatedDesc q
  if limit < 0 then q else q.take limit.toNat

/-- `DatabaseManager.get_all_jobs` (database.py lines 192-213): the whole body
runs under `try`; a successful query yields its rows, and ANY exception is
swallowed into an empty list (`return []` in the `except` arm). -/
def get_all_jobs (query_outcome : Except String (List JobRow)) : List JobRow :=
  match query_outcome with
  | .ok jobs => jobs
  | .error _ => []

/-! ## Concrete stores used by the claim theorems -/

/-- The row `create_job` appends for the P2 scenario jobs. -/
def demoJob (id : Nat) (p : JobPriority) (t : Nat) : JobRow :=
  { id := id, jobType := "timecard_processing", status := .pending, priority := p.value,
    file_name := "timecards.xlsx", file_size := 1000, created_at := t, updated_at := t }

/-- P2 scenario store: four jobs inserted in order Normal, High, Low, Urgent,
with strictly increasing `created_at`. -/
def demoStore : List JobRow :=
  create_job
    (create_job
      (create_job
        (create_job [] 1 "timecard_processing" "timecards.xlsx" 1000 .normal 0)
        2 "timecard_processing" "timecards.xlsx" 1000 .high 1)
      3 "timecard_processing" "timecards.xlsx" 1000 .low 2)
    4 "timecard_processing" "timecards.xlsx" 1000 .urgent 3

def demoClaim1 : Option JobRow × List JobRow := get_next_job demoStore 10

def demoClaim2 : Option JobRow × List JobRow := get_next_job demoClaim1.2 11

def demoClaim3 : Option JobRow × List JobRow := get_next_job demoClaim2.2 12

def demoClaim4 : Option JobRow × List JobRow := get_next_job demoClaim3.2 13

/-- A job that already carries a `completed_at` stamp (it reached `failed` at
instant 5). -/
def c3job : JobRow :=
  { id := 7, jobType := "timecard_processing", status := JobStatus.failed, priority := 2,
    file_name := "t.xlsx", file_size := 10, created_at := 0, updated_at := 5,
    started_at := some 1, completed_at := some 5 }

/-- A job whose `started_at` is still unset, for the C3 witness. -/
def c3freshJob : JobRow :=
  { id := 8, jobType := "timecard_processing", status := JobStatus.pending, priority := 2,
    file_name := "t.xlsx", file_size := 10, created_at := 0, updated_at := 0 }

/-- A store with exactly one Completed and one Failed job. -/
def c5store : List JobRow :=
  [{ id := 1, jobType := "timecard_processing", status := JobStatus.completed, priority := 2,
     file_name := "a.xlsx", file_size := 10, created_at := 0, updated_at := 3 },
   { id := 2, jobType := "timecard_processing", status := JobStatus.failed, priority := 2,
     file_name := "b.xlsx", file_size := 10, created_at := 1, updated_at := 4 }]

/-- A store with one Processing job, for the C6 witness. -/
def c6store : List JobRow :=
  [{ id := 1, jobType := "timecard_processing", status := JobStatus.processing, priority := 2,
     file_name := "a.xlsx", file_size := 10, created_at := 0, updated_at := 2,
     started_at := some 2 },
   { id := 2, jobType := "timecard_processing", status := JobStatus.pending, priority := 2,
     file_name := "b.xlsx", file_size := 10, created_at := 1, updated_at := 1 }]

/-! ## timecard_pipeline.py: data model

A `daily_entries` element is a JSON array whose elements are strings or
numbers.  `JVal.toFloat` is Python `float(x)`: numbers convert, a
(non-numeric) string raises `ValueError`; a numeric string is represented
directly by its numeric value `.n`. -/

inductive JVal
  | s (v : String)
  | n (v : ℚ)
deriving DecidableEq

/-- Python truthiness of a JSON scalar: empty string and zero are falsy. -/
def JVal.truthy : JVal → Bool
  | .s v => !(v == "")
  | .n v => !(v == 0)

/-- Python `float(x)` on a JSON scalar. -/
def JVal.toFloat : JVal → Except Unit ℚ
  | .n v => .ok v
  | .s _ => .error ()

/-- One element of `daily_entries`:
`[employee_name, date, daily_rate, project, department]` (possibly shorter or
longer — the source guards on `len(entry)`). -/
abbrev Entry := List JVal

/-- The two keys of an Automated Reasoning finding that
`step3_automated_reasoning` reads (`finding.get("result")`,
`finding.get("ruleDescription")`). -/
structure Finding where
  result : Option String := none
  ruleDescription : Option String := none
deriving DecidableEq

/-- The extracted-record dictionary as populated by `step2_llm_extraction`
(timecard_pipeline.py lines 614-637 and the fallback at lines 649-668),
restricted to the keys the post-processing and validation steps read. -/
structure ExtractedRecord where
  employee_name : JVal
  employee_count : Int
  employee_list : List JVal
  total_timecards : Int
  total_days : Int
  unique_days : Int
  total_wage : ℚ
  average_daily_rate : ℚ
  pay_period_start : JVal
  pay_period_end : JVal
  daily_entries : List Entry
  validation_passed : Bool
  validation_method : String
  validation_findings : List Finding
  validation_confidence : ℚ
  guardrail_action : String
  mathematical_consistency : Bool
  error : Option String := none
deriving DecidableEq

/-! ## timecard_pipeline.py: _post_process_extracted_data (claims C4, C8, C10) -/

/-- Add an element to a Python `set`, here a duplicate-free list in first
insertion order. -/
def insertUnique (x : JVal) (l : List JVal) : List JVal :=
  if x ∈ l then l else l ++ [x]

/-- The accumulation loop of `_post_process_extracted_data`
(timecard_pipeline.py lines 685-693): entries shorter than 5 are skipped;
`daily_rate = float(entry[2]) if entry[2] else 0.0` (a truthy non-numeric
rate raises `ValueError`); employee and date are added to sets and the rate
accumulated. -/
def postLoop : List Entry → List JVal → List JVal → ℚ →
    Except Unit (List JVal × List JVal × ℚ)
  | [], emps, dates, w => .ok (emps, dates, w)
  | e :: rest, emps, dates, w =>
    match e with
    | emp :: date :: rateV :: _ :: _ :: _ => do
        let rate ← if rateV.truthy then rateV.toFloat else pure (0 : ℚ)
        postLoop rest (insertUnique emp emps) (insertUnique date dates) (w + rate)
    | _ => postLoop rest emps dates w

def jvalLeStr : JVal → JVal → Bool
  | .s a, .s b => decide (a ≤ b)
  | _, _ => false

def jvalLeNum : JVal → JVal → Bool
  | .n a, .n b => decide (a ≤ b)
  | _, _ => false

def insertLeBy (le : JVal → JVal → Bool) (x : JVal) : List JVal → List JVal
  | [] => [x]
  | y :: ys => if le x y then x :: y :: ys else y :: insertLeBy le x ys

def sortJValBy (le : JVal → JVal → Bool) (l : List JVal) : List JVal :=
  l.foldr (insertLeBy le) []

/-- Python `sorted(list(unique_dates))` (timecard_pipeline.py line 700):
sorting a homogeneous list of strings or of numbers succeeds; comparing a
string with a number raises `TypeError` (lists of length at most one never
compare). -/
def sortDates (dates : List JVal) : Except Unit (List JVal) :=
  if dates.length ≤ 1 then .ok dates
  else if dates.all (fun v => match v with | .s _ => true | .n _ => false) then
    .ok (sortJValBy jvalLeStr dates)
  else if dates.all (fun v => match v with | .s _ => false | .n _ => true) then
    .ok (sortJValBy jvalLeNum dates)
  else .error ()

/-- Round-half-to-even on the integers, Python `round`.  `Int.fdiv x.num x.den`
is the floor `⌊x⌋` of the (normalised) rational. -/
def roundHalfEven (x : ℚ) : ℤ :=
  let f : ℤ := Int.fdiv x.num (x.den : ℤ)
  let frac : ℚ := x - (f : ℚ)
  if frac < 1 / 2 then f
  else if 1 / 2 < frac then f + 1
  else if f % 2 = 0 then f else f + 1

/-- Python `round(x, 2)`. -/
def round2 (q : ℚ) : ℚ := (roundHalfEven (q * 100) : ℚ) / 100

/-- The `extracted.update({...})` of `_post_process_extracted_data`
(timecard_pipeline.py lines 695-727): every aggregate key is overwritten with
the value recomputed from the loop results. -/
def applyAggregates (d : ExtractedRecord) (emps dates : List JVal) (w : ℚ)
    (sorted_dates : List JVal) : ExtractedRecord :=
  let total_timecards : Int := (d.daily_entries.length : Int)
  let employee_count : Int := (emps.length : Int)
  let average_daily_rate : ℚ :=
    if 0 < d.daily_entries.length then w / (d.daily_entries.length : ℚ) else 0
  { d with
    total_timecards := total_timecards,
    total_days := total_timecards,
    unique_days := (dates.length : Int),
    employee_count := employee_count,
    employee_list := emps,
    employee_name :=
      match emps with
      | [e] => e
      | _ => JVal.s ("Multiple Employees (" ++ toString employee_count ++ ")"),
    total_wage := round2 w,
    average_daily_rate := round2 average_daily_rate,
    pay_period_start := sorted_dates.head?.getD (JVal.s "N/A"),
    pay_period_end := sorted_dates.getLast?.getD (JVal.s "N/A") }

/-- `TimecardPipeline._post_process_extracted_data` (timecard_pipeline.py
lines 670-734): empty (or absent) `daily_entries` short-circuits to the
record unchanged; otherwise the aggregates are recomputed from
`daily_entries` and written over the provider-reported values. -/
def post_process_extracted_data (d : ExtractedRecord) : Except Unit ExtractedRecord :=
  if d.daily_entries.isEmpty then .ok d
  else
    match postLoop d.daily_entries [] [] 0 with
    | .error e => .error e
    | .ok (emps, dates, w) =>
      match sortDates dates with
      | .error e => .error e
      | .ok sorted_dates => .ok (applyAggregates d emps dates w sorted_dates)

/-! ## timecard_pipeline.py: consistency checks (claims C2, C7) -/

/-- `sum(float(entry[2]) if len(entry) > 2 else 0 for entry in daily_entries)`
(timecard_pipeline.py lines 886-888). -/
def sumRates : List Entry → ℚ → Except Unit ℚ
  | [], acc => .ok acc
  | e :: rest, acc =>
    match e.get? 2 with
    | some v => do
        let r ← v.toFloat
        sumRates rest (acc + r)
    | none => sumRates rest acc

/-- `set(entry[0] for entry in daily_entries if len(entry) > 0)`. -/
def uniqueEmployees (entries : List Entry) : List JVal :=
  entries.foldl (fun acc e =>
    match e.head? with
    | some v => insertUnique v acc
    | none => acc) []

/-- `any(float(entry[2]) < 0 for entry in daily_entries if len(entry) > 2)`
(timecard_pipeline.py line 914), with the generator's left-to-right
short-circuit evaluation. -/
def anyNegativeRate : List Entry → Except Unit Bool
  | [] => .ok false
  | e :: rest =>
    match e.get? 2 with
    | some v => do
        let r ← v.toFloat
        if r < 0 then pure true else anyNegativeRate rest
    | none => anyNegativeRate rest

/-- The per-entry structure check of `_is_mathematically_consistent`
(timecard_pipeline.py lines 918-926): five fields, with entries 0, 1, 3, 4
truthy. -/
def entriesWellFormed : List Entry → Bool
  | [] => true
  | e :: rest =>
    match e with
    | a :: b :: _ :: d4 :: e5 :: _ =>
      a.truthy && b.truthy && d4.truthy && e5.truthy && entriesWellFormed rest
    | _ => false

/-- The body of `TimecardPipeline._is_mathematically_consistent`
(timecard_pipeline.py lines 871-932) before its `except` clause.  Checks run
in source order; note that the empty-entries branch compares `total_days`
(not `total_timecards`) and that the tolerance comparisons are strict
(`> 0.01` fails). -/
def consistentE (d : ExtractedRecord) : Except Unit Bool := do
  if d.daily_entries.isEmpty then
    return (d.total_wage == 0 && d.average_daily_rate == 0 && d.total_days == 0)
  let actual_sum ← sumRates d.daily_entries 0
  let actual_avg : ℚ :=
    if d.daily_entries.isEmpty then 0 else actual_sum / (d.daily_entries.length : ℚ)
  let actual_unique : Int := ((uniqueEmployees d.daily_entries).length : Int)
  if |actual_sum - d.total_wage| > 1 / 100 then
    return false
  if |actual_avg - d.average_daily_rate| > 1 / 100 then
    return false
  if actual_unique ≠ d.employee_count then
    return false
  if (d.daily_entries.length : Int) ≠ d.total_days then
    return false
  let hasNeg ← anyNegativeRate d.daily_entries
  if hasNeg then
    return false
  if !entriesWellFormed d.daily_entries then
    return false
  return true

/-- `TimecardPipeline._is_mathematically_consistent`: any
`ValueError`/`TypeError`/`IndexError` is caught and yields `False`. -/
def is_mathematically_consistent (d : ExtractedRecord) : Bool :=
  match consistentE d with
  | .ok b => b
  | .error _ => false

/-- `TimecardPipeline._check_sum_calculation` (timecard_pipeline.py lines
934-948); its own `except` yields `False`, and the pass condition is
`< 0.01` (strict). -/
def check_sum_calculation (d : ExtractedRecord) : Bool :=
  match (do
    if d.daily_entries.isEmpty then
      return (d.total_wage == 0)
    let actual_sum ← sumRates d.daily_entries 0
    return decide (|actual_sum - d.total_wage| < 1 / 100) : Except Unit Bool) with
  | .ok b => b
  | .error _ => false

/-- `TimecardPipeline._check_average_calculation` (timecard_pipeline.py lines
951-965). -/
def check_average_calculation (d : ExtractedRecord) : Bool :=
  if d.daily_entries.isEmpty then d.average_daily_rate == 0
  else
    let expected_avg := d.total_wage / (d.daily_entries.length : ℚ)
    decide (|expected_avg - d.average_daily_rate| < 1 / 100)

/-- `TimecardPipeline._check_count_consistency` (timecard_pipeline.py lines
967-991). -/
def check_count_consistency (d : ExtractedRecord) : Bool :=
  if d.daily_entries.isEmpty then
    d.employee_count == 0 && d.total_days == 0
  else
    (((uniqueEmployees d.daily_entries).length : Int) == d.employee_count) &&
      (((d.daily_entries.length : Int)) == d.total_days)

/-- The per-entry loop of `_check_data_integrity` (timecard_pipeline.py lines
993-1016): structure, truthiness of the four text fields, then the (possibly
raising) negative-rate check. -/
def dataIntegrityE : List Entry → Except Unit Bool
  | [] => .ok true
  | e :: rest =>
    match e with
    | a :: b :: c :: d4 :: e5 :: _ =>
      if !(a.truthy && b.truthy && d4.truthy && e5.truthy) then .ok false
      else do
        let r ← c.toFloat
        if r < 0 then pure false else dataIntegrityE rest
    | _ => .ok false

/-- `TimecardPipeline._check_data_integrity`; its `except` yields `False`. -/
def check_data_integrity (d : ExtractedRecord) : Bool :=
  match dataIntegrityE d.daily_entries with
  | .ok b => b
  | .error _ => false

/-- `TimecardPipeline._get_mathematical_errors` (timecard_pipeline.py lines
1018-1064).  Unlike the `_check_*` helpers it has no `except` of its own, so
the recomputation of the sum in its first branch can raise. -/
def get_mathematical_errors (d : ExtractedRecord) : Except Unit (List String) := do
  let sumErrs ←
    if check_sum_calculation d then pure ([] : List String)
    else do
      let actual_sum ← sumRates d.daily_entries 0
      pure ["Sum calculation error: Total wage (" ++ toString d.total_wage ++
        ") ≠ Sum of daily rates (" ++ toString actual_sum ++ ")"]
  let avgErrs : List String :=
    if check_average_calculation d then []
    else
      let expected_avg :=
        if d.daily_entries.isEmpty then 0 else d.total_wage / (d.daily_entries.length : ℚ)
      ["Average calculation error: Reported (" ++ toString d.average_daily_rate ++
        ") ≠ Calculated (" ++ toString expected_avg ++ ")"]
  let cntErrs : List String :=
    if check_count_consistency d then []
    else
      (if ((uniqueEmployees d.daily_entries).length : Int) ≠ d.employee_count then
        ["Employee count mismatch: Reported (" ++ toString d.employee_count ++
          ") ≠ Actual unique employees (" ++
          toString (uniqueEmployees d.daily_entries).length ++ ")"]
      else []) ++
      (if ((d.daily_entries.length : Int)) ≠ d.total_days then
        ["Timecard count mismatch: Reported (" ++ toString d.total_days ++
          ") ≠ Daily entries length (" ++ toString d.daily_entries.length ++ ")"]
      else [])
  let intErrs : List String :=
    if check_data_integrity d then []
    else ["Data integrity issues: negative values, missing fields, or invalid structure"]
  pure (sumErrs ++ avgErrs ++ cntErrs ++ intErrs)

/-! ## timecard_pipeline.py: step3_automated_reasoning (claim C2) -/

/-- The subset of the report dictionary returned by
`step3_automated_reasoning` that the claims are about. -/
structure Step3Report where
  validation_result : String
  validation_issues : List String
  requires_human_review : Bool
  reasoning_confidence : ℚ
  sum_correct : Bool
  average_correct : Bool
  count_correct : Bool
  data_integrity : Bool
deriving DecidableEq

/-- The `validation_issues` accumulation of `step3_automated_reasoning`
(timecard_pipeline.py lines 779-798). -/
def step3Issues (d : ExtractedRecord) : Except Unit (List String) :=
  let issues0 : List String :=
    if !d.validation_passed then
      if d.validation_method == "automated_reasoning" then
        d.validation_findings.filterMap fun f =>
          if f.result == some "INVALID" then
            some ("Data integrity issue: " ++ f.ruleDescription.getD "Mathematical validation failed")
          else none
      else if !d.mathematical_consistency then
        ["Mathematical inconsistencies detected in timecard data"]
      else []
    else []
  if d.validation_method == "none" && !d.mathematical_consistency then
    match get_mathematical_errors d with
    | .error e => .error e
    | .ok math_errors => .ok (issues0 ++ math_errors)
  else
    .ok issues0

/-- `TimecardPipeline.step3_automated_reasoning` (timecard_pipeline.py lines
736-846): the final verdict is `INVALID` on a guardrail intervention or any
accumulated issue, `VALID` when step2 validation passed, else
`SATISFIABLE`. -/
def step3_automated_reasoning (d : ExtractedRecord) : Except Unit Step3Report :=
  match step3Issues d with
  | .error e => .error e
  | .ok issues =>
    let final_result : String :=
      if d.guardrail_action == "GUARDRAIL_INTERVENED" || d.guardrail_action == "BLOCKED" then
        "INVALID"
      else if !issues.isEmpty then "INVALID"
      else if d.validation_passed then "VALID"
      else "SATISFIABLE"
    .ok { validation_result := final_result,
          validation_issues := issues,
          requires_human_review := !issues.isEmpty,
          reasoning_confidence := d.validation_confidence,
          sum_correct := check_sum_calculation d,
          average_correct := check_average_calculation d,
          count_correct := check_count_consistency d,
          data_integrity := check_data_integrity d }

/-! ## Concrete extracted records used by the claim theorems -/

/-- A neutral, internally consistent extracted record with no daily entries,
mirroring an all-zero extraction (cf. the fallback record of
`step2_llm_extraction`, timecard_pipeline.py lines 649-668). -/
def baseRecord : ExtractedRecord :=
  { employee_name := .s "Extraction Failed", employee_count := 0, employee_list := [],
    total_timecards := 0, total_days := 0, unique_days := 0,
    total_wage := 0, average_daily_rate := 0,
    pay_period_start := .s "2025-01-01", pay_period_end := .s "2025-01-31",
    daily_entries := [],
    validation_passed := true, validation_method := "none", validation_findings := [],
    validation_confidence := 1, guardrail_action := "NONE",
    mathematical_consistency := true }

/-- C2 counterexample record: the local consistency check failed
(`total_wage = 100` with no entries) but the external validation passed
cleanly with Automated Reasoning findings present. -/
def c2rec : ExtractedRecord :=
  { baseRecord with
    total_wage := 100, mathematical_consistency := false,
    validation_method := "automated_reasoning",
    validation_findings := [{ result := some "VALID" }],
    validation_passed := true }

/-- C2 witness record: local checks failed on the fallback path (no external
validation ran, `validation_passed = false`). -/
def c2wrec : ExtractedRecord :=
  { baseRecord with
    total_wage := 5, mathematical_consistency := false,
    validation_passed := false, validation_method := "none" }

/-- C4 record whose reported aggregates are all wrong. -/
def c4rec1 : ExtractedRecord :=
  { baseRecord with
    daily_entries := [[.s "Alice", .s "2025-01-01", .n 100, .s "ProjectX", .s "Camera"]],
    total_wage := 999, average_daily_rate := 999, total_timecards := 9,
    employee_count := 9 }

/-- Same record as `c4rec1` except for the reported `total_wage`. -/
def c4rec2 : ExtractedRecord := { c4rec1 with total_wage := 55 }

/-- C7 counterexample record: empty `daily_entries`, zero wage and average,
`total_timecards = 0`, but a nonzero `total_days`. -/
def c7rec : ExtractedRecord :=
  { baseRecord with total_days := 3, total_timecards := 0 }

/-- C8 witness input: two daily entries and a wrong reported total. -/
def c8rec : ExtractedRecord :=
  { baseRecord with
    daily_entries := [[.s "Bob", .s "2025-02-01", .n 250, .s "P", .s "D"],
                      [.s "Bob", .s "2025-02-02", .n 250, .s "P", .s "D"]],
    total_wage := 777 }

/-- The post-processed form of `c8rec`. -/
def c8out : ExtractedRecord :=
  { baseRecord with
    employee_name := .s "Bob", employee_count := 1, employee_list := [.s "Bob"],
    total_timecards := 2, total_days := 2, unique_days := 2,
    total_wage := 500, average_daily_rate := 250,
    pay_period_start := .s "2025-02-01", pay_period_end := .s "2025-02-02",
    daily_entries := [[.s "Bob", .s "2025-02-01", .n 250, .s "P", .s "D"],
                      [.s "Bob", .s "2025-02-02", .n 250, .s "P", .s "D"]] }

/-- C10 witness record: the degraded fallback record of
`step2_llm_extraction`, with an error annotation and reported (all-zero)
aggregates and no daily entries. -/
def c10rec : ExtractedRecord :=
  { baseRecord with
    error := some "LLM extraction failed",
    total_wage := 123, average_daily_rate := 45 }

theorem claimBetter_iff (a b : JobRow) :
    claimBetter a b = true ↔
      b.priority < a.priority ∨ (a.priority = b.priority ∧ a.created_at < b.created_at) := by
  simp [claimBetter]

theorem claimBetter_false_iff (a b : JobRow) :
    claimBetter a b = false ↔
      ¬(b.priority < a.priority ∨ (a.priority = b.priority ∧ a.created_at < b.created_at)) := by
  rw [← claimBetter_iff, Bool.eq_false_iff, ne_eq]

theorem claimBetter_irrefl (a : JobRow) : claimBetter a a = false := by
  rw [claimBetter_false_iff]; omega

theorem claimBetter_asymm (a b : JobRow) (h : claimBetter a b = true) :
    claimBetter b a = false := by
  rw [claimBetter_iff] at h
  rw [claimBetter_false_iff]
  omega

theorem claimBetter_neg_trans (a b c : JobRow) (hab : claimBetter a b = false)
    (hbc : claimBetter b c = false) : claimBetter a c = false := by
  rw [claimBetter_false_iff] at hab hbc ⊢
  omega

theorem selectNext_mem_pending :
    ∀ (s : List JobRow) (j : JobRow), selectNext s = some j →
      j ∈ s ∧ j.status = JobStatus.pending := by
  intro s
  induction s with
  | nil => intro j h; simp [selectNext] at h
  | cons x rest ih =>
    intro j h
    by_cases hx : x.status = JobStatus.pending
    · rw [selectNext, if_pos hx] at h
      cases hrest : selectNext rest with
      | none =>
        rw [hrest, chooseBetter] at h
        cases h
        exact ⟨List.mem_cons_self _ _, hx⟩
      | some b =>
        rw [hrest, chooseBetter] at h
        by_cases hb : claimBetter b x = true
        · rw [if_pos hb] at h
          cases h
          obtain ⟨hmem, hst⟩ := ih _ hrest
          exact ⟨List.mem_cons_of_mem _ hmem, hst⟩
        · rw [if_neg hb] at h
          cases h
          exact ⟨List.mem_cons_self _ _, hx⟩
    · rw [selectNext, if_neg hx] at h
      obtain ⟨hmem, hst⟩ := ih j h
      exact ⟨List.mem_cons_of_mem _ hmem, hst⟩

theorem selectNext_none_no_pending :
    ∀ (s : List JobRow), selectNext s = none →
      ∀ k ∈ s, k.status ≠ JobStatus.pending := by
  intro s
  induction s with
  | nil => intro _ k hk; simp at hk
  | cons x rest ih =>
    intro h k hk
    by_cases hx : x.status = JobStatus.pending
    · rw [selectNext, if_pos hx] at h
      cases hrest : selectNext rest <;> rw [hrest, chooseBetter] at h
      · cases h
      · split at h <;> cases h
    · rw [selectNext, if_neg hx] at h
      rcases List.mem_cons.mp hk with hkx | hkr
      · exact hkx ▸ hx
      · exact ih h k hkr

theorem selectNext_optimal :
    ∀ (s : List JobRow) (j : JobRow), selectNext s = some j →
      ∀ k ∈ s, k.status = JobStatus.pending → claimBetter k j = false := by
  intro s
  induction s with
  | nil => intro j h; simp [selectNext] at h
  | cons x rest ih =>
    intro j h k hk hkp
    by_cases hx : x.status = JobStatus.pending
    · rw [selectNext, if_pos hx] at h
      cases hrest : selectNext rest with
      | none =>
        rw [hrest, chooseBetter] at h
        cases h
        rcases List.mem_cons.mp hk with hkx | hkr
        · exact hkx ▸ claimBetter_irrefl _
        · exact absurd hkp (selectNext_none_no_pending rest hrest k hkr)
      | some b =>
        rw [hrest, chooseBetter] at h
        by_cases hb : claimBetter b x = true
        · rw [if_pos hb] at h
          cases h
          rcases List.mem_cons.mp hk with hkx | hkr
          · exact hkx ▸ claimBetter_asymm _ _ hb
          · exact ih _ hrest k hkr hkp
        · rw [if_neg hb] at h
          cases h
          rcases List.mem_cons.mp hk with hkx | hkr
          · exact hkx ▸ claimBetter_irrefl _
          · exact claimBetter_neg_trans _ _ _ (ih _ hrest k hkr hkp)
              (Bool.not_eq_true _ ▸ hb)
    · rw [selectNext, if_neg hx] at h
      rcases List.mem_cons.mp hk with hkx | hkr
      · exact absurd hkp (hkx ▸ hx)
      · exact ih j h k hkr hkp

/-! ## Claim C1 -/

/-- C1: every successful `get_next_job` claim returns (the processing-marked
copy of) a Pending job of maximal priority, and among jobs of that priority
the one with the earliest `created_at`; in particular four jobs inserted in
order Normal, High, Low, Urgent are claimed in order Urgent, High, Normal,
Low. -/
theorem get_next_job_priority_then_fifo :
    (∀ (s : List JobRow) (now : Nat) (jc : JobRow),
      (get_next_job s now).1 = some jc →
      (∃ j, j ∈ s ∧ j.status = JobStatus.pending ∧ jc = markProcessing j now) ∧
      (∀ k ∈ s, k.status = JobStatus.pending →
        k.priority ≤ jc.priority ∧
          (k.priority = jc.priority → jc.created_at ≤ k.created_at))) ∧
    (demoClaim1.1.map (·.id) = some 4 ∧ demoClaim2.1.map (·.id) = some 2 ∧
     demoClaim3.1.map (·.id) = some 1 ∧ demoClaim4.1.map (·.id) = some 3) := by
  constructor
  · intro s now jc h
    unfold get_next_job at h
    cases hs : selectNext s with
    | none => rw [hs] at h; simp at h
    | some j =>
      rw [hs] at h
      simp only [Option.some.injEq] at h
      obtain ⟨hmem, hpend⟩ := selectNext_mem_pending s j hs
      have hopt := selectNext_optimal s j hs
      refine ⟨⟨j, hmem, hpend, h.symm⟩, ?_⟩
      intro k hk hkp
      have hb := hopt k hk hkp
      rw [claimBetter_false_iff] at hb
      push_neg at hb
      have hp : jc.priority = j.priority := by rw [← h]; rfl
      have hc : jc.created_at = j.created_at := by rw [← h]; rfl
      rw [hp, hc]
      exact ⟨by omega, fun he => by omega⟩
  · exact ⟨by decide, by decide, by decide, by decide⟩

/-- C1 witness: in the four-job demo store the first claim returns the Urgent
job, marked processing, and it dominates every pending job in the order. -/
theorem get_next_job_priority_then_fifo_witness :
    (get_next_job demoStore 10).1 = some (markProcessing (demoJob 4 JobPriority.urgent 3) 10) ∧
    (∀ k ∈ demoStore, k.status = JobStatus.pending →
      k.priority ≤ (markProcessing (demoJob 4 JobPriority.urgent 3) 10).priority ∧
        (k.priority = (markProcessing (demoJob 4 JobPriority.urgent 3) 10).priority →
          (markProcessing (demoJob 4 JobPriority.urgent 3) 10).created_at ≤ k.created_at)) :=
  ⟨by decide,
   (get_next_job_priority_then_fifo.1 demoStore 10
     (markProcessing (demoJob 4 JobPriority.urgent 3) 10) (by decide)).2⟩

/-! ## Claim C3 -/

/-- C3 counterexample: two successive updates of the same job into terminal
statuses.  The first stamps `completed_at = 5`; the claim says the second
(into Cancelled, at instant 9) must leave it unchanged, but the code
overwrites it with 9. -/
theorem update_overwrites_completed_at :
    (applyStatusUpdate c3freshJob JobStatus.failed none none none 5).completed_at = some 5 ∧
    (applyStatusUpdate (applyStatusUpdate c3freshJob JobStatus.failed none none none 5)
        JobStatus.cancelled none none none 9).completed_at = some 9 ∧
    (applyStatusUpdate (applyStatusUpdate c3freshJob JobStatus.failed none none none 5)
        JobStatus.cancelled none none none 9).completed_at ≠ some 5 := by
  decide

/-- C3 (amended): `update_job_status` sets `updated_at` unconditionally, sets
`started_at` only on the first transition into Processing, and sets
`completed_at` on EVERY update into a terminal status (Completed, Failed or
Cancelled), overwriting any previously-set value; a non-terminal update
leaves `completed_at` unchanged. -/
theorem update_timestamp_discipline (j : JobRow) (st : JobStatus)
    (progress : Option Nat) (result : Option String) (err : Option String) (now : Nat) :
    (applyStatusUpdate j st progress result err now).updated_at = now ∧
    (st = JobStatus.processing → j.started_at = none →
      (applyStatusUpdate j st progress result err now).started_at = some now) ∧
    (∀ t, j.started_at = some t →
      (applyStatusUpdate j st progress result err now).started_at = some t) ∧
    (st ≠ JobStatus.processing →
      (applyStatusUpdate j st progress result err now).started_at = j.started_at) ∧
    ((st = JobStatus.completed ∨ st = JobStatus.failed ∨ st = JobStatus.cancelled) →
      (applyStatusUpdate j st progress result err now).completed_at = some now) ∧
    (¬(st = JobStatus.completed ∨ st = JobStatus.failed ∨ st = JobStatus.cancelled) →
      (applyStatusUpdate j st progress result err now).completed_at = j.completed_at) := by
  cases j with
  | mk jid jty jst jpr jfn jfs jca jua jsa jcmp jprog jres jerr =>
    cases progress <;> cases result <;> cases err <;> cases st <;> cases jsa <;>
      simp [applyStatusUpdate]

/-- C3 witness: at concrete inputs, a first Processing update stamps
`started_at`, and a Failed update stamps `completed_at`. -/
theorem update_timestamp_discipline_witness :
    (applyStatusUpdate c3freshJob JobStatus.processing (some 10) none none 4).started_at = some 4 ∧
    (applyStatusUpdate c3job JobStatus.failed none none none 9).completed_at = some 9 ∧
    (∀ t, c3job.started_at = some t →
      (applyStatusUpdate c3job JobStatus.failed none none none 9).started_at = some t) :=
  ⟨(update_timestamp_discipline c3freshJob JobStatus.processing (some 10) none none 4).2.1
      rfl rfl,
   (update_timestamp_discipline c3job JobStatus.failed none none none 9).2.2.2.2.1
      (Or.inr (Or.inl rfl)),
   (update_timestamp_discipline c3job JobStatus.failed none none none 9).2.2.1⟩

/-! ## Claim C5 -/

/-- C5 counterexample: with one Completed and one Failed job the claim's value
is 1 / (1 + 1) = 1/2, but the code returns 50 (a percentage). -/
theorem success_rate_counterexample :
    c5store.countP (fun r => r.status == JobStatus.completed) = 1 ∧
    c5store.countP (fun r => r.status == JobStatus.failed) = 1 ∧
    success_rate c5store = 50 ∧
    success_rate c5store ≠ (1 : ℚ) / (1 + 1) := by
  have hc : c5store.countP (fun r => r.status == JobStatus.completed) = 1 := by decide
  have hf : c5store.countP (fun r => r.status == JobStatus.failed) = 1 := by decide
  have h50 : success_rate c5store = 50 := by
    simp only [success_rate, hc, hf]
    norm_num
  refine ⟨hc, hf, h50, ?_⟩
  rw [h50]
  norm_num

/-- C5 (amended): `success_rate` is the PERCENTAGE
100 · Completed / (Completed + Failed) over the per-status counts, and 0 when
no job has finished. -/
theorem success_rate_percentage (s : List JobRow) :
    (s.countP (fun r => r.status == JobStatus.completed) +
        s.countP (fun r => r.status == JobStatus.failed) = 0 →
      success_rate s = 0) ∧
    (0 < s.countP (fun r => r.status == JobStatus.completed) +
        s.countP (fun r => r.status == JobStatus.failed) →
      success_rate s =
        100 * (s.countP (fun r => r.status == JobStatus.completed) : ℚ) /
          ((s.countP (fun r => r.status == JobStatus.completed) : ℚ) +
            (s.countP (fun r => r.status == JobStatus.failed) : ℚ))) := by
  constructor
  · intro h0
    unfold success_rate
    rw [if_neg (by omega)]
  · intro hpos
    unfold success_rate
    rw [if_pos hpos]
    rw [div_mul_eq_mul_div, mul_comm]
    push_cast
    ring_nf

/-- C5 witness: the empty store has rate 0; the one-Completed-one-Failed
store has rate 100·1/(1+1) = 50. -/
theorem success_rate_percentage_witness :
    success_rate ([] : List JobRow) = 0 ∧ success_rate c5store = 50 := by
  refine ⟨(success_rate_percentage []).1 rfl, ?_⟩
  have h := (success_rate_percentage c5store).2 (by decide)
  have hc : c5store.countP (fun r => r.status == JobStatus.completed) = 1 := by decide
  have hf : c5store.countP (fun r => r.status == JobStatus.failed) = 1 := by decide
  rw [h, hc, hf]
  norm_num

/-! ## Claim C6 -/

/-- C6: `cancel_job` is a compare-and-swap on Pending.  It reports success
iff some row with the id is currently Pending; a Pending row with the id
transitions to Cancelled; every other row (wrong id or not Pending, in
particular Processing) is left in the store unchanged; and when no Pending
row carries the id the call returns false and the store is untouched. -/
theorem cancel_job_compare_and_swap (s : List JobRow) (id now : Nat) :
    ((cancel_job s id now).1 = true ↔
      ∃ j ∈ s, j.id = id ∧ j.status = JobStatus.pending) ∧
    (∀ j ∈ s, j.id = id → j.status = JobStatus.pending →
      { j with status := JobStatus.cancelled, updated_at := now } ∈ (cancel_job s id now).2) ∧
    (∀ j ∈ s, ¬(j.id = id ∧ j.status = JobStatus.pending) → j ∈ (cancel_job s id now).2) ∧
    ((∀ j ∈ s, j.id = id → j.status ≠ JobStatus.pending) →
      cancel_job s id now = (false, s)) := by
  refine ⟨?_, ?_, ?_, ?_⟩
  · unfold cancel_job
    simp only [decide_eq_true_eq]
    rw [List.countP_pos_iff]
    constructor
    · rintro ⟨j, hj, hhit⟩
      simp only [Bool.and_eq_true, beq_iff_eq] at hhit
      exact ⟨j, hj, hhit⟩
    · rintro ⟨j, hj, h1, h2⟩
      exact ⟨j, hj, by simp [h1, h2]⟩
  · intro j hj h1 h2
    unfold cancel_job
    have hthis : (j.id == id && j.status == JobStatus.pending) = true := by
      simp [h1, h2]
    have hmem := List.mem_map_of_mem
      (fun r => if r.id == id && r.status == JobStatus.pending then
        { r with status := JobStatus.cancelled, updated_at := now } else r) hj
    simpa [hthis] using hmem
  · intro j hj hnot
    unfold cancel_job
    have hthis : (j.id == id && j.status == JobStatus.pending) = false := by
      by_cases h1 : j.id = id
      · have h2 : j.status ≠ JobStatus.pending := fun hs => hnot ⟨h1, hs⟩
        simp [h1, h2]
      · simp [h1]
    have hmem := List.mem_map_of_mem
      (fun r => if r.id == id && r.status == JobStatus.pending then
        { r with status := JobStatus.cancelled, updated_at := now } else r) hj
    simpa [hthis] using hmem
  · intro hnone
    unfold cancel_job
    have hz : s.countP (fun r => r.id == id && r.status == JobStatus.pending) = 0 := by
      rw [List.countP_eq_zero]
      intro j hj
      have hns := hnone j hj
      simp only [Bool.and_eq_true, beq_iff_eq, not_and]
      exact fun h1 h2 => hns h1 h2
    have hfix : ∀ j ∈ s,
        (if j.id == id && j.status == JobStatus.pending then
          { j with status := JobStatus.cancelled, updated_at := now } else j) = j := by
      intro j hj
      have hthis : (j.id == id && j.status == JobStatus.pending) = false := by
        by_cases h1 : j.id = id
        · have h2 := hnone j hj h1
          simp [h1, h2]
        · simp [h1]
      rw [hthis]
      simp
    have hmap : (s.map fun r => if r.id == id && r.status == JobStatus.pending then
        { r with status := JobStatus.cancelled, updated_at := now } else r) = s := by
      rw [List.map_congr_left hfix]
      exact List.map_id s
    simp only [hz, hmap]
    rfl

/-- C6 witness: cancelling the Processing job (id 1) fails and leaves the
store unchanged; cancelling the Pending job (id 2) succeeds. -/
theorem cancel_job_compare_and_swap_witness :
    cancel_job c6store 1 9 = (false, c6store) ∧ (cancel_job c6store 2 9).1 = true :=
  ⟨(cancel_job_compare_and_swap c6store 1 9).2.2.2 (by decide),
   (cancel_job_compare_and_swap c6store 2 9).1.mpr
     ⟨{ id := 2, jobType := "timecard_processing", status := JobStatus.pending, priority := 2,
        file_name := "b.xlsx", file_size := 10, created_at := 1, updated_at := 1 },
      by decide, rfl, rfl⟩⟩

/-! ## Claim C9 -/

/-- C9: `get_all_jobs` never propagates an error: any exception from the
underlying query yields the empty list, so a storage failure is
indistinguishable from an empty store, and no `InvalidArgument` is signalled
for a non-positive limit (`LIMIT 0` yields an ordinary empty result and a
negative limit yields the whole filtered, sorted result). -/
theorem get_all_jobs_swallows_errors :
    (∀ e : String, get_all_jobs (.error e) = []) ∧
    (∀ l : List JobRow, get_all_jobs (.ok l) = l) ∧
    get_all_jobs (.error "storage failure") = get_all_jobs (.ok []) ∧
    (∀ (s : List JobRow) (fs : Option (List JobStatus)), listQuery s 0 fs = []) ∧
    (∀ (s : List JobRow) (fs : Option (List JobStatus)),
      listQuery s (-1) fs =
        sortByCreatedDesc (match fs with
          | some f => s.filter fun r => f.contains r.status
          | none => s)) := by
  refine ⟨fun e => rfl, fun l => rfl, rfl, ?_, ?_⟩
  · intro s fs
    unfold listQuery
    rw [if_neg (by omega)]
    rfl
  · intro s fs
    unfold listQuery
    rw [if_pos (by omega)]

/-! ## Post-processing helper lemmas -/

theorem post_process_nonempty (d : ExtractedRecord) (h : d.daily_entries.isEmpty = false) :
    post_process_extracted_data d =
      match postLoop d.daily_entries [] [] 0 with
      | .error e => .error e
      | .ok (emps, dates, w) =>
        match sortDates dates with
        | .error e => .error e
        | .ok sorted_dates => .ok (applyAggregates d emps dates w sorted_dates) := by
  unfold post_process_extracted_data
  rw [h]
  simp

theorem applyAggregates_entries (d : ExtractedRecord) (emps dates : List JVal)
    (w : ℚ) (sd : List JVal) :
    (applyAggregates d emps dates w sd).daily_entries = d.daily_entries := rfl

theorem applyAggregates_idem (d : ExtractedRecord) (emps dates : List JVal)
    (w : ℚ) (sd : List JVal) :
    applyAggregates (applyAggregates d emps dates w sd) emps dates w sd =
      applyAggregates d emps dates w sd := by
  cases d
  rfl

theorem applyAggregates_reported_independent (d : ExtractedRecord)
    (q1 q2 : ℚ) (n1 n2 n3 n4 : Int) (v1 v2 nm : JVal) (el : List JVal)
    (emps dates : List JVal) (w : ℚ) (sd : List JVal) :
    applyAggregates
      { d with total_wage := q1, average_daily_rate := q2, total_timecards := n1,
               total_days := n2, unique_days := n3, employee_count := n4,
               pay_period_start := v1, pay_period_end := v2,
               employee_name := nm, employee_list := el } emps dates w sd =
      applyAggregates d emps dates w sd := by
  cases d
  rfl

/-! ## Claim C10 -/

/-- C10: post-processing a record with empty (or absent) `daily_entries`
returns it entirely unchanged: no aggregate is recomputed or zeroed, the
reported aggregates and any error annotation pass through as-is. -/
theorem post_process_empty_identity (d : ExtractedRecord)
    (h : d.daily_entries = []) :
    post_process_extracted_data d = .ok d := by
  unfold post_process_extracted_data
  rw [h]
  rfl

/-- C10 witness: the degraded fallback record (error annotation, reported
aggregates) passes through post-processing unchanged. -/
theorem post_process_empty_identity_witness :
    c10rec.daily_entries = [] ∧ post_process_extracted_data c10rec = .ok c10rec :=
  ⟨rfl, post_process_empty_identity c10rec rfl⟩

/-! ## Claim C8 -/

/-- C8: post-processing is idempotent — feeding its own output back in yields
the very same record (in particular all aggregate fields agree), because the
recomputation is a pure function of `daily_entries`, which post-processing
never modifies. -/
theorem post_process_idempotent (d rep : ExtractedRecord)
    (h : post_process_extracted_data d = .ok rep) :
    post_process_extracted_data rep = .ok rep := by
  by_cases he : d.daily_entries.isEmpty = true
  · unfold post_process_extracted_data at h ⊢
    rw [he] at h
    simp only [if_true] at h
    simp only [Except.ok.injEq] at h
    subst h
    rw [he]
    simp
  · have he' : d.daily_entries.isEmpty = false := Bool.eq_false_iff.mpr he
    rw [post_process_nonempty d he'] at h
    cases hpl : postLoop d.daily_entries [] [] 0 with
    | error e => rw [hpl] at h; simp at h
    | ok trip =>
      obtain ⟨emps, dates, w⟩ := trip
      rw [hpl] at h
      simp only at h
      cases hsd : sortDates dates with
      | error e => rw [hsd] at h; simp at h
      | ok sd =>
        rw [hsd] at h
        simp only [Except.ok.injEq] at h
        have hrepe : rep.daily_entries = d.daily_entries := by
          rw [← h]
          rfl
        have hre : rep.daily_entries.isEmpty = false := by rw [hrepe]; exact he'
        rw [post_process_nonempty rep hre, hrepe, hpl]
        simp only
        rw [hsd]
        rw [← h]
        exact congrArg Except.ok (applyAggregates_idem d emps dates w sd)

/-- C8 witness: a concrete two-entry record post-processes to `c8out`, and
post-processing `c8out` again returns `c8out` itself. -/
theorem post_process_idempotent_witness :
    post_process_extracted_data c8rec = .ok c8out ∧
    post_process_extracted_data c8out = .ok c8out := by
  have h1 : post_process_extracted_data c8rec = .ok c8out := by
    with_unfolding_all rfl
  exact ⟨h1, post_process_idempotent c8rec c8out h1⟩

/-! ## Claim C7 -/

/-- C7 counterexample: a record with empty `daily_entries`,
`total_wage = 0`, `average_daily_rate = 0` and `total_timecards = 0` (the
claim's condition holds) that the code judges INCONSISTENT, because the code
compares `total_days` (here 3), not `total_timecards`. -/
theorem consistency_empty_checks_total_days_cex :
    c7rec.daily_entries = [] ∧ c7rec.total_wage = 0 ∧
    c7rec.average_daily_rate = 0 ∧ c7rec.total_timecards = 0 ∧
    is_mathematically_consistent c7rec = false := by
  exact ⟨rfl, rfl, rfl, rfl, rfl⟩

/-- C7 (amended): for a record with empty `daily_entries` the consistency
check succeeds iff `total_wage = 0`, `average_daily_rate = 0` and
`total_days = 0` (the code reads `total_days`, not `total_timecards`). -/
theorem consistency_empty_iff (d : ExtractedRecord)
    (h : d.daily_entries = []) :
    is_mathematically_consistent d = true ↔
      (d.total_wage = 0 ∧ d.average_daily_rate = 0 ∧ d.total_days = 0) := by
  unfold is_mathematically_consistent consistentE
  rw [h]
  simp [pure, Except.pure, Bool.and_eq_true, beq_iff_eq, and_assoc]

/-- C7 witness: the all-zero empty record is judged consistent. -/
theorem consistency_empty_iff_witness :
    baseRecord.daily_entries = [] ∧ is_mathematically_consistent baseRecord = true :=
  ⟨rfl, (consistency_empty_iff baseRecord rfl).mpr ⟨rfl, rfl, rfl⟩⟩

/-! ## Claim C4 -/

/-- C4 counterexample: two records identical except for the provider-reported
`total_wage` (999 vs 55) post-process to the SAME output (whose `total_wage`
is the recomputed 100).  No field of the output can therefore hold the
original reported value — post-processing overwrites, it does not preserve
the originals alongside the recomputed figures. -/
theorem post_process_overwrite_counterexample :
    c4rec1.total_wage = 999 ∧ c4rec2.total_wage = 55 ∧
    post_process_extracted_data c4rec1 = post_process_extracted_data c4rec2 ∧
    (post_process_extracted_data c4rec1).map (·.total_wage) = .ok 100 := by
  refine ⟨rfl, rfl, ?_, ?_⟩
  · with_unfolding_all rfl
  · with_unfolding_all rfl

/-- C4 (amended): for every record with non-empty `daily_entries`,
post-processing recomputes the aggregates from `daily_entries` and writes
them over the reported values in place: the output does not depend on any of
the input's reported aggregate fields (so the originals are not preserved),
and the recomputed `total_timecards`/`total_days` equal the entry count while
`daily_entries` itself is unchanged. -/
theorem post_process_recomputes_and_overwrites (d : ExtractedRecord)
    (h : d.daily_entries ≠ []) :
    (∀ (q1 q2 : ℚ) (n1 n2 n3 n4 : Int) (v1 v2 nm : JVal) (el : List JVal),
      post_process_extracted_data
        { d with total_wage := q1, average_daily_rate := q2, total_timecards := n1,
                 total_days := n2, unique_days := n3, employee_count := n4,
                 pay_period_start := v1, pay_period_end := v2,
                 employee_name := nm, employee_list := el } =
      post_process_extracted_data d) ∧
    (∀ rep, post_process_extracted_data d = .ok rep →
      rep.total_timecards = (d.daily_entries.length : Int) ∧
      rep.total_days = (d.daily_entries.length : Int) ∧
      rep.daily_entries = d.daily_entries) := by
  have he : d.daily_entries.isEmpty = false := by
    cases hd : d.daily_entries with
    | nil => exact absurd hd h
    | cons a as => rfl
  constructor
  · intro q1 q2 n1 n2 n3 n4 v1 v2 nm el
    conv_lhs => rw [post_process_nonempty
      { d with total_wage := q1, average_daily_rate := q2, total_timecards := n1,
               total_days := n2, unique_days := n3, employee_count := n4,
               pay_period_start := v1, pay_period_end := v2,
               employee_name := nm, employee_list := el } he]
    conv_rhs => rw [post_process_nonempty d he]
    dsimp only
    cases hpl : postLoop d.daily_entries [] [] 0 with
    | error e => rfl
    | ok trip =>
      obtain ⟨emps, dates, w⟩ := trip
      dsimp only
      cases hsd : sortDates dates with
      | error e => rfl
      | ok sd =>
        exact congrArg Except.ok
          (applyAggregates_reported_independent d q1 q2 n1 n2 n3 n4 v1 v2 nm el
            emps dates w sd)
  · intro rep hrep
    rw [post_process_nonempty d he] at hrep
    cases hpl : postLoop d.daily_entries [] [] 0 with
    | error e => rw [hpl] at hrep; simp at hrep
    | ok trip =>
      obtain ⟨emps, dates, w⟩ := trip
      rw [hpl] at hrep
      simp only at hrep
      cases hsd : sortDates dates with
      | error e => rw [hsd] at hrep; simp at hrep
      | ok sd =>
        rw [hsd] at hrep
        simp only [Except.ok.injEq] at hrep
        refine ⟨?_, ?_, ?_⟩ <;> rw [← hrep] <;> rfl

/-- C4 witness: the one-entry record `c4rec1` with wrong reported aggregates
post-processes independently of its reported `total_wage`. -/
theorem post_process_recomputes_and_overwrites_witness :
    post_process_extracted_data
      { c4rec1 with total_wage := 1234, average_daily_rate := 5, total_timecards := 7,
                    total_days := 7, unique_days := 7, employee_count := 7,
                    pay_period_start := JVal.s "x", pay_period_end := JVal.s "y",
                    employee_name := JVal.s "z", employee_list := [] } =
      post_process_extracted_data c4rec1 ∧
    (post_process_extracted_data c4rec1).map (·.total_timecards) = .ok 1 :=
  ⟨(post_process_recomputes_and_overwrites c4rec1 (by decide)).1
      1234 5 7 7 7 7 (JVal.s "x") (JVal.s "y") (JVal.s "z") [],
   by with_unfolding_all rfl⟩

/-! ## Claim C2 -/

/-- C2 counterexample: a record whose local consistency check failed
(`mathematical_consistency = false`, and indeed the checker judges it
inconsistent), but whose external validation passed cleanly with Automated
Reasoning findings — the synthesized verdict is VALID, not Invalid, so local
issues do NOT override a clean external pass. -/
theorem step3_external_pass_beats_local_cex :
    c2rec.mathematical_consistency = false ∧
    is_mathematically_consistent c2rec = false ∧
    c2rec.validation_passed = true ∧
    c2rec.validation_method = "automated_reasoning" ∧
    (step3_automated_reasoning c2rec).map (·.validation_result) = .ok "VALID" := by
  exact ⟨rfl, rfl, rfl, rfl, rfl⟩

/-- C2 (amended): a failed local consistency check forces an Invalid verdict
only when the external validation did not pass and the validation method is
not "automated_reasoning" (the fallback path); when the external validation
passed, the verdict can be Valid despite failed local checks (see the
counterexample). -/
theorem step3_fallback_local_invalid (d : ExtractedRecord)
    (hc : d.mathematical_consistency = false)
    (hp : d.validation_passed = false)
    (hm : d.validation_method ≠ "automated_reasoning") :
    ∀ rep : Step3Report, step3_automated_reasoning d = .ok rep →
      rep.validation_result = "INVALID" := by
  intro rep hrep
  have hbeq : (d.validation_method == "automated_reasoning") = false :=
    beq_eq_false_iff_ne.mpr hm
  unfold step3_automated_reasoning step3Issues at hrep
  rw [hc, hp, hbeq] at hrep
  simp only [Bool.not_false, Bool.not_true, Bool.and_true, if_true, if_false,
    Bool.false_eq_true, ite_true, ite_false] at hrep
  by_cases hnone : (d.validation_method == "none") = true
  · rw [hnone] at hrep
    simp only [if_true] at hrep
    cases hge : get_mathematical_errors d with
    | error e => rw [hge] at hrep; simp at hrep
    | ok merrs =>
      rw [hge] at hrep
      simp only [Except.ok.injEq] at hrep
      rw [← hrep]
      simp [List.isEmpty]
  · have hnone' : (d.validation_method == "none") = false := Bool.eq_false_iff.mpr hnone
    rw [hnone'] at hrep
    simp only [Bool.false_eq_true, if_false, ite_false, Except.ok.injEq] at hrep
    rw [← hrep]
    simp [List.isEmpty]

/-- C2 witness: a record on the fallback path (method "none", validation not
passed, local checks failed) receives the INVALID verdict. -/
theorem step3_fallback_local_invalid_witness :
    c2wrec.mathematical_consistency = false ∧ c2wrec.validation_passed = false ∧
    c2wrec.validation_method ≠ "automated_reasoning" ∧
    (step3_automated_reasoning c2wrec).map (·.validation_result) = .ok "INVALID" := by
  refine ⟨rfl, rfl, by decide, ?_⟩
  obtain ⟨rep, hrep⟩ : ∃ rep, step3_automated_reasoning c2wrec = .ok rep :=
    ⟨_, by with_unfolding_all rfl⟩
  rw [hrep]
  simp only [Except.map]
  exact congrArg Except.ok
    (step3_fallback_local_invalid c2wrec rfl rfl (by decide) rep hrep)

end Timecards
